import Mathlib

/-!
Shallow embedding of the civic-backend authentication routes
(src/routes/auth.ts and src/middleware/adminAuth.ts — the Supabase
variant `auth` and the Better-Auth variant `citizenAuth`), together
with proofs about the account-lockout logic, the multi-format login
identifier resolution, and the registration / password-reset flows.

Databases are modelled as lists of rows; external services
(Supabase auth admin, Better Auth sign-in, the Fayda OTP provider)
are modelled as explicit function parameters; timestamps are
Nat milliseconds.  JavaScript string operations are embedded as
code-unit-sequence functions on `String.data`.
-/

namespace Civic

/-- JS `String.prototype.startsWith(pre)`: the code-unit sequence of
`pre` is a prefix of the code-unit sequence of `s`. -/
def strStartsWith (s pre : String) : Bool :=
  pre.data.isPrefixOf s.data

/-- JS `s.substring(n)`: drop the first `n` code units of `s`. -/
def strDrop (s : String) (n : Nat) : String :=
  ⟨s.data.drop n⟩

/-- Whitespace characters stripped by JS `String.prototype.trim`. -/
def isStrWhitespace (c : Char) : Bool :=
  c == ' ' || c == '\t' || c == '\n' || c == '\r'

/-- JS `String.prototype.trim`: strip leading and trailing whitespace. -/
def strTrim (s : String) : String :=
  ⟨((s.data.dropWhile isStrWhitespace).reverse.dropWhile isStrWhitespace).reverse⟩

/-- The regex test `/^\d{12}$/.test(s)`: exactly 12 decimal digits. -/
def isFinInput (s : String) : Bool :=
  s.data.length == 12 && s.data.all Char.isDigit

/-- A row of the `profiles` / `user` table
(src/middleware/adminAuth.ts backing schema; spec §3). -/
structure Profile where
  id : Nat
  email : String
  fin : String
  phone_number : String
  full_name : String
  dob : String
  gender : String
  photo_url : Option String
  role : String
  email_verified : Bool
  failed_login_attempts : Option Nat
  locked_until : Option Nat
  deriving Repr, DecidableEq

/-- External managed-auth delegate:
`getEmail` models `supabaseAdmin.auth.admin.getUserById` (the auth email of the user, or a failure), and `signIn` models
`supabaseAdmin.auth.signInWithPassword` / `auth.api.signInEmail`
(does this email/password pair authenticate?). -/
structure AuthEnv where
  getEmail : Nat → Option String
  signIn : String → String → Bool

/-- Candidate phone representations built by the login handlers
(src/routes/auth.ts lines 56-58, src/middleware/adminAuth.ts lines
245-250): start from the raw input; a `09…` input also adds
`+251` + input minus the leading `0`; a `+2519…` input also adds
`0` + input minus the `+251`. -/
def possibleNumbers (rawInput : String) : List String :=
  if strStartsWith rawInput "09" then
    [rawInput, "+251" ++ strDrop rawInput 1]
  else if strStartsWith rawInput "+2519" then
    [rawInput, "0" ++ strDrop rawInput 4]
  else
    [rawInput]

/-- Which lookup branch the login handler took. -/
inductive LookupKind where
  | fin
  | phone
  deriving Repr, DecidableEq

/-- Login identifier resolution (src/routes/auth.ts lines 47-66):
a trimmed input matching `/^\d{12}$/` is looked up by exact `fin`
equality; anything else is looked up as a phone number against the
candidate representation set.  Returns the branch taken and the
first matching row (`maybeSingle` / `rows[0]`). -/
def lookupProfile (store : List Profile) (rawInput : String) :
    LookupKind × Option Profile :=
  if isFinInput rawInput then
    (LookupKind.fin, store.find? (fun p => p.fin == rawInput))
  else
    (LookupKind.phone,
     store.find? (fun p => (possibleNumbers rawInput).contains p.phone_number))

/-- Outcome of a login request, keeping the distinct responses of the
handlers apart. -/
inductive LoginOutcome where
  | badRequest                      -- 400 missing credentials
  | invalidCredentials              -- 401 no matching profile
  | locked (waitMinutes : Nat)      -- 403 active lockout
  | systemError                     -- 500 auth-user lookup failed
  | lockedNow                       -- 403 threshold reached on this attempt
  | wrongPassword (remaining : Nat) -- 401 bad password, attempts remaining
  | success                         -- 200
  deriving Repr, DecidableEq

/-- HTTP status code attached to each login outcome. -/
def statusOf : LoginOutcome → Nat
  | LoginOutcome.badRequest => 400
  | LoginOutcome.invalidCredentials => 401
  | LoginOutcome.locked _ => 403
  | LoginOutcome.systemError => 500
  | LoginOutcome.lockedNow => 403
  | LoginOutcome.wrongPassword _ => 401
  | LoginOutcome.success => 200

/-- Result of a login request: the response outcome, the store after
the request, and whether the delegated password check was invoked. -/
structure LoginResult where
  outcome : LoginOutcome
  store : List Profile
  passwordChecked : Bool
  deriving Repr, DecidableEq

/-- Model of `UPDATE ... WHERE id = pid`: apply `f` to every row whose id matches. -/
def updateProfile (store : List Profile) (pid : Nat)
    (f : Profile → Profile) : List Profile :=
  store.map (fun p => if p.id == pid then f p else p)

/-- The lockout test `profileData.locked_until && new
Date(profileData.locked_until) > new Date()`: the lock timestamp is
set and strictly in the future. -/
def lockedActive (p : Profile) (now : Nat) : Bool :=
  match p.locked_until with
  | some t => now < t
  | none => false

/-- Ceiling division, `Math.ceil(a / b)` on natural inputs. -/
def ceilDiv (a b : Nat) : Nat := (a + b - 1) / b

/-- The fixed lock duration: 15 minutes in milliseconds. -/
def lockDurationMs : Nat := 15 * 60000

/-- Shared body of the Supabase login handler after a profile row was
found (src/routes/auth.ts lines 73-117): lockout check, auth-email
lookup, delegated password check, counter increment / lock on
failure, counter and lock reset on success. -/
def loginFound (env : AuthEnv) (store : List Profile) (now : Nat)
    (password : String) (p : Profile) : LoginResult :=
  if lockedActive p now then
    let t := p.locked_until.getD 0
    ⟨LoginOutcome.locked (ceilDiv (t - now) 60000), store, false⟩
  else
    match env.getEmail p.id with
    | none => ⟨LoginOutcome.systemError, store, false⟩
    | some email =>
      if env.signIn email password then
        ⟨LoginOutcome.success,
         updateProfile store p.id
           (fun q => { q with failed_login_attempts := some 0,
                              locked_until := none }),
         true⟩
      else
        let newCount := p.failed_login_attempts.getD 0 + 1
        if newCount ≥ 5 then
          ⟨LoginOutcome.lockedNow,
           updateProfile store p.id
             (fun q => { q with failed_login_attempts := some newCount,
                                locked_until := some (now + lockDurationMs) }),
           true⟩
        else
          ⟨LoginOutcome.wrongPassword (5 - newCount),
           updateProfile store p.id
             (fun q => { q with failed_login_attempts := some newCount }),
           true⟩

/-- The Supabase login handler for the `/login` route
(src/routes/auth.ts lines 36-122). -/
def login (env : AuthEnv) (store : List Profile) (now : Nat)
    (loginInput password : String) : LoginResult :=
  let rawInput := strTrim loginInput
  if rawInput == "" || password == "" then
    ⟨LoginOutcome.badRequest, store, false⟩
  else
    match (lookupProfile store rawInput).2 with
    | none => ⟨LoginOutcome.invalidCredentials, store, false⟩
    | some p => loginFound env store now password p

/-- Shared body of the Better-Auth login handler after a user row was
found (src/middleware/adminAuth.ts lines 266-328): the auth email
comes from the row itself, and a sub-threshold failure writes
`locked_until = NULL` alongside the new counter. -/
def citizenLoginFound (env : AuthEnv) (store : List Profile) (now : Nat)
    (password : String) (p : Profile) : LoginResult :=
  if lockedActive p now then
    let t := p.locked_until.getD 0
    ⟨LoginOutcome.locked (ceilDiv (t - now) 60000), store, false⟩
  else
    if env.signIn p.email password then
      ⟨LoginOutcome.success,
       updateProfile store p.id
         (fun q => { q with failed_login_attempts := some 0,
                            locked_until := none }),
       true⟩
    else
      let newCount := p.failed_login_attempts.getD 0 + 1
      let lockTime : Option Nat :=
        if newCount ≥ 5 then some (now + lockDurationMs) else none
      let store' := updateProfile store p.id
        (fun q => { q with failed_login_attempts := some newCount,
                           locked_until := lockTime })
      if newCount ≥ 5 then
        ⟨LoginOutcome.lockedNow, store', true⟩
      else
        ⟨LoginOutcome.wrongPassword (5 - newCount), store', true⟩

/-- The Better-Auth login handler for the citizen `/login` route
(src/middleware/adminAuth.ts lines 222-337). -/
def citizenLogin (env : AuthEnv) (store : List Profile) (now : Nat)
    (loginInput password : String) : LoginResult :=
  let rawInput := strTrim loginInput
  if rawInput == "" || password == "" then
    ⟨LoginOutcome.badRequest, store, false⟩
  else
    match (lookupProfile store rawInput).2 with
    | none => ⟨LoginOutcome.invalidCredentials, store, false⟩
    | some p => citizenLoginFound env store now password p

/-- Is there a stored account with this FIN
(`SELECT id FROM … WHERE fin = $1`)? -/
def finExists (store : List Profile) (fin : String) : Bool :=
  store.any (fun p => p.fin == fin)

/-- Outcome of an initiate-register request. -/
inductive InitRegOutcome where
  | invalidFin   -- 400
  | conflict     -- 409 already registered
  | otpSent      -- 200
  | otpError     -- 500 Fayda request failed
  deriving Repr, DecidableEq

/-- Result of an initiate-register request: the response and whether
`FaydaService.requestOtp` was invoked. -/
structure InitRegResult where
  outcome : InitRegOutcome
  otpRequested : Bool
  deriving Repr, DecidableEq

/-- The Supabase handler for the `/initiate-register` route
(src/routes/auth.ts lines 9-32): validation is `!fin ||
fin.length !== 12`; an existing FIN is a 409 conflict before the
OTP provider is contacted.  `otpOk` models whether the Fayda
request-OTP call succeeds. -/
def initiateRegister (store : List Profile) (fin : String)
    (otpOk : Bool) : InitRegResult :=
  if fin == "" || fin.data.length != 12 then
    ⟨InitRegOutcome.invalidFin, false⟩
  else if finExists store fin then
    ⟨InitRegOutcome.conflict, false⟩
  else if otpOk then
    ⟨InitRegOutcome.otpSent, true⟩
  else
    ⟨InitRegOutcome.otpError, true⟩

/-- The Better-Auth handler for the citizen `/initiate-register` route
(src/middleware/adminAuth.ts lines 87-128): validation is `!fin ||
!/^\d{12}$/.test(fin)`. -/
def citizenInitiateRegister (store : List Profile) (fin : String)
    (otpOk : Bool) : InitRegResult :=
  if fin == "" || !(isFinInput fin) then
    ⟨InitRegOutcome.invalidFin, false⟩
  else if finExists store fin then
    ⟨InitRegOutcome.conflict, false⟩
  else if otpOk then
    ⟨InitRegOutcome.otpSent, true⟩
  else
    ⟨InitRegOutcome.otpError, true⟩

/-- KYC payload returned by `FaydaService.verifyOtp`
(src/services/fyda.ts): identity attributes of the verified citizen. -/
structure KycData where
  fullName : String
  phone : String
  dob : String
  gender : String
  face : Option String
  deriving Repr, DecidableEq

/-- Outcome of a complete-register request. -/
inductive CompRegOutcome where
  | missingFields  -- 400 (Better-Auth variant input validation)
  | otpRejected    -- OTP verification failed at the provider
  | emailConflict  -- 409 (Better-Auth variant email uniqueness)
  | createError    -- managed-auth user creation failed
  | registered     -- 200
  deriving Repr, DecidableEq

/-- Result of a complete-register request: the response, whether the
managed-auth user-creation call was issued, whether the profile
row was written, and the store afterward. -/
structure CompRegResult where
  outcome : CompRegOutcome
  userCreateCalled : Bool
  profileWritten : Bool
  store : List Profile
  deriving Repr, DecidableEq

/-- The Supabase handler for the `/complete-register` route
(src/routes/auth.ts lines 126-163): verify the OTP with Fayda, create
the auth user, then insert the profile row with role `citizen`.
`verify` models `FaydaService.verifyOtp` (`none` = the provider
rejected the OTP and the call threw); `createUser` models
`supabaseAdmin.auth.admin.createUser` returning the new user id. -/
def completeRegister (store : List Profile)
    (fin otp email password : String)
    (verify : String → String → Option KycData)
    (createUser : String → String → Option Nat) : CompRegResult :=
  match verify fin otp with
  | none => ⟨CompRegOutcome.otpRejected, false, false, store⟩
  | some kyc =>
    match createUser email password with
    | none => ⟨CompRegOutcome.createError, true, false, store⟩
    | some uid =>
      ⟨CompRegOutcome.registered, true, true,
       store ++ [{ id := uid, email := email, fin := fin,
                   phone_number := kyc.phone, full_name := kyc.fullName,
                   dob := kyc.dob, gender := kyc.gender,
                   photo_url := kyc.face, role := "citizen",
                   email_verified := true,
                   failed_login_attempts := none, locked_until := none }]⟩

/-- The Better-Auth handler for the citizen `/complete-register` route
(src/middleware/adminAuth.ts lines 135-215): validate the four fields,
verify the OTP with Fayda, reject a duplicate email with 409, create
the user via `auth.api.signUpEmail`, then back-fill the row with the
KYC attributes, role `citizen` and `email_verified = true`. -/
def citizenCompleteRegister (store : List Profile)
    (fin otp email password : String)
    (verify : String → String → Option KycData)
    (signUp : String → String → String → Option Nat) : CompRegResult :=
  if fin == "" || otp == "" || email == "" || password == "" then
    ⟨CompRegOutcome.missingFields, false, false, store⟩
  else
    match verify fin otp with
    | none => ⟨CompRegOutcome.otpRejected, false, false, store⟩
    | some kyc =>
      if store.any (fun p => p.email == email) then
        ⟨CompRegOutcome.emailConflict, false, false, store⟩
      else
        match signUp email password kyc.fullName with
        | none => ⟨CompRegOutcome.createError, true, false, store⟩
        | some uid =>
          ⟨CompRegOutcome.registered, true, true,
           store ++ [{ id := uid, email := email, fin := fin,
                       phone_number := kyc.phone, full_name := kyc.fullName,
                       dob := kyc.dob, gender := kyc.gender,
                       photo_url := kyc.face, role := "citizen",
                       email_verified := true,
                       failed_login_attempts := none, locked_until := none }]⟩

/-- Outcome of an initiate-reset request. -/
inductive InitResetOutcome where
  | missingFin      -- 400
  | notFound        -- 404 (Supabase variant reveals absence)
  | genericSuccess  -- 200 generic message, absence not revealed
  | otpSent         -- 200
  | otpError        -- 500
  deriving Repr, DecidableEq

/-- Result of an initiate-reset request: the response and whether
`FaydaService.requestOtp` was invoked. -/
structure InitResetResult where
  outcome : InitResetOutcome
  otpRequested : Bool
  deriving Repr, DecidableEq

/-- The Supabase handler for the `/initiate-reset` route
(src/routes/auth.ts lines 198-225): a FIN with no account gets an
explicit 404 error. -/
def initiateReset (store : List Profile) (fin : String)
    (otpOk : Bool) : InitResetResult :=
  if fin == "" then
    ⟨InitResetOutcome.missingFin, false⟩
  else if !(finExists store fin) then
    ⟨InitResetOutcome.notFound, false⟩
  else if otpOk then
    ⟨InitResetOutcome.otpSent, true⟩
  else
    ⟨InitResetOutcome.otpError, true⟩

/-- The Better-Auth handler for the citizen `/initiate-reset` route
(src/middleware/adminAuth.ts lines 343-383): a FIN with no account
gets a success payload with a generic message, and the OTP provider
is not contacted. -/
def citizenInitiateReset (store : List Profile) (fin : String)
    (otpOk : Bool) : InitResetResult :=
  if fin == "" then
    ⟨InitResetOutcome.missingFin, false⟩
  else if !(finExists store fin) then
    ⟨InitResetOutcome.genericSuccess, false⟩
  else if otpOk then
    ⟨InitResetOutcome.otpSent, true⟩
  else
    ⟨InitResetOutcome.otpError, true⟩

/-! ### Helper lemmas -/

theorem login_eq_loginFound (env : AuthEnv) (store : List Profile) (now : Nat)
    (loginInput password : String) (p : Profile)
    (hraw : strTrim loginInput ≠ "") (hpw : password ≠ "")
    (hfind : (lookupProfile store (strTrim loginInput)).2 = some p) :
    login env store now loginInput password = loginFound env store now password p := by
  have hcond : (strTrim loginInput == "" || password == "") = false := by
    simp [hraw, hpw]
  simp [login, hcond, hfind]

theorem citizenLogin_eq_found (env : AuthEnv) (store : List Profile) (now : Nat)
    (loginInput password : String) (p : Profile)
    (hraw : strTrim loginInput ≠ "") (hpw : password ≠ "")
    (hfind : (lookupProfile store (strTrim loginInput)).2 = some p) :
    citizenLogin env store now loginInput password =
      citizenLoginFound env store now password p := by
  have hcond : (strTrim loginInput == "" || password == "") = false := by
    simp [hraw, hpw]
  simp [citizenLogin, hcond, hfind]

theorem mem_of_lookup {store : List Profile} {raw : String} {p : Profile}
    (h : (lookupProfile store raw).2 = some p) : p ∈ store := by
  unfold lookupProfile at h
  by_cases hf : isFinInput raw <;> simp [hf] at h <;>
    exact List.mem_of_find?_eq_some h

theorem mem_updateProfile {store : List Profile} {pid : Nat} {f : Profile → Profile}
    {q : Profile} (hq : q ∈ updateProfile store pid f) :
    ∃ r ∈ store, q = if r.id = pid then f r else r := by
  obtain ⟨r, hr, hrq⟩ := List.mem_map.1 hq
  refine ⟨r, hr, ?_⟩
  by_cases hid : r.id = pid
  · simp [hid] at hrq ⊢
    exact hrq.symm
  · simp [hid] at hrq ⊢
    exact hrq.symm

theorem self_mem_updateProfile {store : List Profile} {p : Profile}
    (f : Profile → Profile) (hp : p ∈ store) :
    f p ∈ updateProfile store p.id f := by
  refine List.mem_map.2 ⟨p, hp, ?_⟩
  simp

theorem updateProfile_spec {store : List Profile} {pid : Nat} {f : Profile → Profile}
    (q : Profile) (hq : q ∈ updateProfile store pid f) (hid : q.id = pid) :
    ∃ r ∈ store, r.id = pid ∧ q = f r := by
  obtain ⟨r, hr, hrq⟩ := mem_updateProfile hq
  by_cases h : r.id = pid
  · exact ⟨r, hr, h, by simpa [h] using hrq⟩
  · rw [if_neg h] at hrq
    subst hrq
    exact absurd hid h

theorem loginFound_fail (env : AuthEnv) (store : List Profile) (now : Nat)
    (password : String) (p : Profile) (e : String)
    (hnl : lockedActive p now = false) (hemail : env.getEmail p.id = some e)
    (hfail : env.signIn e password = false) :
    loginFound env store now password p =
      if 5 ≤ p.failed_login_attempts.getD 0 + 1 then
        ⟨LoginOutcome.lockedNow,
         updateProfile store p.id
           (fun q => { q with
             failed_login_attempts := some (p.failed_login_attempts.getD 0 + 1),
             locked_until := some (now + lockDurationMs) }),
         true⟩
      else
        ⟨LoginOutcome.wrongPassword (5 - (p.failed_login_attempts.getD 0 + 1)),
         updateProfile store p.id
           (fun q => { q with
             failed_login_attempts := some (p.failed_login_attempts.getD 0 + 1) }),
         true⟩ := by
  simp [loginFound, hnl, hemail, hfail]

theorem citizenLoginFound_fail (env : AuthEnv) (store : List Profile) (now : Nat)
    (password : String) (p : Profile)
    (hnl : lockedActive p now = false)
    (hfail : env.signIn p.email password = false) :
    citizenLoginFound env store now password p =
      if 5 ≤ p.failed_login_attempts.getD 0 + 1 then
        ⟨LoginOutcome.lockedNow,
         updateProfile store p.id
           (fun q => { q with
             failed_login_attempts := some (p.failed_login_attempts.getD 0 + 1),
             locked_until := some (now + lockDurationMs) }),
         true⟩
      else
        ⟨LoginOutcome.wrongPassword (5 - (p.failed_login_attempts.getD 0 + 1)),
         updateProfile store p.id
           (fun q => { q with
             failed_login_attempts := some (p.failed_login_attempts.getD 0 + 1),
             locked_until := none }),
         true⟩ := by
  by_cases h5 : 5 ≤ p.failed_login_attempts.getD 0 + 1 <;>
    simp [citizenLoginFound, hnl, hfail, h5]

theorem lockedActive_iff {p : Profile} {now : Nat} :
    lockedActive p now = true ↔ ∃ t, p.locked_until = some t ∧ now < t := by
  unfold lockedActive
  cases h : p.locked_until <;> simp [h]

/-! ### Concrete data for witnesses -/

/-- A concrete auth delegate: user 1 has email `user@example.com`,
whose only accepted password is `hunter2`. -/
def envGood : AuthEnv :=
  ⟨fun _ => some "user@example.com",
   fun e pw => e == "user@example.com" && pw == "hunter2"⟩

/-- A concrete account row locked until timestamp 600000. -/
def pLocked : Profile :=
  { id := 1, email := "user@example.com", fin := "123456789012",
    phone_number := "+251911223344", full_name := "Abebe Bikila",
    dob := "1990-01-01", gender := "F", photo_url := none,
    role := "citizen", email_verified := true,
    failed_login_attempts := some 5, locked_until := some 600000 }

/-- A concrete account row with one prior failed attempt and no lock. -/
def pFail : Profile :=
  { id := 1, email := "user@example.com", fin := "123456789012",
    phone_number := "+251911223344", full_name := "Abebe Bikila",
    dob := "1990-01-01", gender := "F", photo_url := none,
    role := "citizen", email_verified := true,
    failed_login_attempts := some 1, locked_until := none }

/-- A concrete account row whose lock expired at timestamp 100 while
the failed-attempt counter still reads 5. -/
def pExpired : Profile :=
  { id := 1, email := "user@example.com", fin := "123456789012",
    phone_number := "+251911223344", full_name := "Abebe Bikila",
    dob := "1990-01-01", gender := "F", photo_url := none,
    role := "citizen", email_verified := true,
    failed_login_attempts := some 5, locked_until := some 100 }

/-! ### Claims -/

/-- Claim C1: for every account whose `locked_until` is set and
strictly in the future at the time of a login request, both login
handlers reject the attempt with the lockout error (HTTP 403) without
invoking the password check and without touching the store, regardless
of the supplied password — for every attempt time before the expiry. -/
theorem locked_account_rejects_without_password_check
    (env : AuthEnv) (store : List Profile) (now : Nat)
    (loginInput password : String) (p : Profile) (t : Nat)
    (hraw : strTrim loginInput ≠ "") (hpw : password ≠ "")
    (hfind : (lookupProfile store (strTrim loginInput)).2 = some p)
    (hlock : p.locked_until = some t) (hfut : now < t) :
    login env store now loginInput password =
      ⟨LoginOutcome.locked (ceilDiv (t - now) 60000), store, false⟩ ∧
    citizenLogin env store now loginInput password =
      ⟨LoginOutcome.locked (ceilDiv (t - now) 60000), store, false⟩ ∧
    statusOf (login env store now loginInput password).outcome = 403 := by
  have hL : lockedActive p now = true := by simp [lockedActive, hlock, hfut]
  have h1 := login_eq_loginFound env store now loginInput password p hraw hpw hfind
  have h2 := citizenLogin_eq_found env store now loginInput password p hraw hpw hfind
  have e1 : login env store now loginInput password =
      ⟨LoginOutcome.locked (ceilDiv (t - now) 60000), store, false⟩ := by
    rw [h1]; simp [loginFound, hL, hlock]
  have e2 : citizenLogin env store now loginInput password =
      ⟨LoginOutcome.locked (ceilDiv (t - now) 60000), store, false⟩ := by
    rw [h2]; simp [citizenLoginFound, hL, hlock]
  exact ⟨e1, e2, by rw [e1]; rfl⟩

/-- Witness for C1: at time 0 with lock expiry 600000, even the
correct password `hunter2` is rejected with the 10-minute lockout
message and the password check is skipped. -/
theorem locked_account_rejects_without_password_check_witness :
    strTrim "0911223344" ≠ "" ∧ ("hunter2" : String) ≠ "" ∧
    (lookupProfile [pLocked] (strTrim "0911223344")).2 = some pLocked ∧
    pLocked.locked_until = some 600000 ∧ 0 < 600000 ∧
    login envGood [pLocked] 0 "0911223344" "hunter2" =
      ⟨LoginOutcome.locked (ceilDiv (600000 - 0) 60000), [pLocked], false⟩ :=
  ⟨by decide, by decide, by decide, by decide, by decide,
   (locked_account_rejects_without_password_check envGood [pLocked] 0
      "0911223344" "hunter2" pLocked 600000 (by decide) (by decide)
      (by decide) (by decide) (by decide)).1⟩

/-- Claim C2: on every failed password check (account found, not
currently locked, credential check fails) both login handlers
increment the stored counter by one; if the incremented counter
reaches the threshold 5, `locked_until` is set to now + 15 minutes
and the same response is the 403 lockout; below the threshold the
response is a 401 reporting exactly `5 - counter` remaining
attempts. -/
theorem failed_login_increments_counter_and_locks_at_threshold
    (env : AuthEnv) (store : List Profile) (now : Nat)
    (loginInput password : String) (p : Profile) (e : String)
    (hraw : strTrim loginInput ≠ "") (hpw : password ≠ "")
    (hfind : (lookupProfile store (strTrim loginInput)).2 = some p)
    (hnl : lockedActive p now = false)
    (hemail : env.getEmail p.id = some e)
    (hfailS : env.signIn e password = false)
    (hfailC : env.signIn p.email password = false) :
    (∀ q ∈ (login env store now loginInput password).store, q.id = p.id →
        q.failed_login_attempts = some (p.failed_login_attempts.getD 0 + 1) ∧
        (5 ≤ p.failed_login_attempts.getD 0 + 1 →
          q.locked_until = some (now + lockDurationMs))) ∧
    (∃ q ∈ (login env store now loginInput password).store, q.id = p.id) ∧
    (5 ≤ p.failed_login_attempts.getD 0 + 1 →
        (login env store now loginInput password).outcome =
          LoginOutcome.lockedNow ∧
        statusOf (login env store now loginInput password).outcome = 403) ∧
    (p.failed_login_attempts.getD 0 + 1 < 5 →
        (login env store now loginInput password).outcome =
          LoginOutcome.wrongPassword (5 - (p.failed_login_attempts.getD 0 + 1)) ∧
        statusOf (login env store now loginInput password).outcome = 401) ∧
    (∀ q ∈ (citizenLogin env store now loginInput password).store, q.id = p.id →
        q.failed_login_attempts = some (p.failed_login_attempts.getD 0 + 1) ∧
        (5 ≤ p.failed_login_attempts.getD 0 + 1 →
          q.locked_until = some (now + lockDurationMs))) ∧
    (5 ≤ p.failed_login_attempts.getD 0 + 1 →
        (citizenLogin env store now loginInput password).outcome =
          LoginOutcome.lockedNow) ∧
    (p.failed_login_attempts.getD 0 + 1 < 5 →
        (citizenLogin env store now loginInput password).outcome =
          LoginOutcome.wrongPassword (5 - (p.failed_login_attempts.getD 0 + 1))) := by
  have hp : p ∈ store := mem_of_lookup hfind
  have h1 := login_eq_loginFound env store now loginInput password p hraw hpw hfind
  have h2 := citizenLogin_eq_found env store now loginInput password p hraw hpw hfind
  rw [h1, h2, loginFound_fail env store now password p e hnl hemail hfailS,
    citizenLoginFound_fail env store now password p hnl hfailC]
  by_cases h5 : 5 ≤ p.failed_login_attempts.getD 0 + 1
  · rw [if_pos h5, if_pos h5]
    refine ⟨?_, ?_, fun _ => ⟨rfl, rfl⟩, fun hlt => absurd h5 (by omega), ?_,
      fun _ => rfl, fun hlt => absurd h5 (by omega)⟩
    · intro q hq hid
      obtain ⟨r, _, _, hqr⟩ := updateProfile_spec q hq hid
      subst hqr
      exact ⟨rfl, fun _ => rfl⟩
    · exact ⟨_, self_mem_updateProfile _ hp, rfl⟩
    · intro q hq hid
      obtain ⟨r, _, _, hqr⟩ := updateProfile_spec q hq hid
      subst hqr
      exact ⟨rfl, fun _ => rfl⟩
  · rw [if_neg h5, if_neg h5]
    refine ⟨?_, ?_, fun hge => absurd hge h5, fun _ => ⟨rfl, rfl⟩, ?_,
      fun hge => absurd hge h5, fun _ => rfl⟩
    · intro q hq hid
      obtain ⟨r, _, _, hqr⟩ := updateProfile_spec q hq hid
      subst hqr
      exact ⟨rfl, fun hge => absurd hge h5⟩
    · exact ⟨_, self_mem_updateProfile _ hp, rfl⟩
    · intro q hq hid
      obtain ⟨r, _, _, hqr⟩ := updateProfile_spec q hq hid
      subst hqr
      exact ⟨rfl, fun hge => absurd hge h5⟩

/-- Witness for C2: the account with one prior failed attempt, on a
wrong password at time 0, ends with counter 2 and gets the 401
response reporting 3 remaining attempts. -/
theorem failed_login_increments_counter_and_locks_at_threshold_witness :
    strTrim "0911223344" ≠ "" ∧ ("badpw" : String) ≠ "" ∧
    (lookupProfile [pFail] (strTrim "0911223344")).2 = some pFail ∧
    lockedActive pFail 0 = false ∧
    envGood.getEmail pFail.id = some "user@example.com" ∧
    envGood.signIn "user@example.com" "badpw" = false ∧
    envGood.signIn pFail.email "badpw" = false ∧
    (login envGood [pFail] 0 "0911223344" "badpw").outcome =
      LoginOutcome.wrongPassword 3 ∧
    { pFail with failed_login_attempts := some 2 }.failed_login_attempts
      = some 2 ∧
    { pFail with failed_login_attempts := some 2 } ∈
      (login envGood [pFail] 0 "0911223344" "badpw").store := by
  have h := failed_login_increments_counter_and_locks_at_threshold envGood
    [pFail] 0 "0911223344" "badpw" pFail "user@example.com" (by decide)
    (by decide) (by decide) (by decide) (by decide) (by decide) (by decide)
  refine ⟨by decide, by decide, by decide, by decide, by decide, by decide,
    by decide, (h.2.2.2.1 (by decide)).1, ?_, by decide⟩
  exact (h.1 { pFail with failed_login_attempts := some 2 } (by decide)
    (by decide)).1

/-- Claim C3: every successful login (account found, not locked,
password accepted) sets the failed-attempt counter of the account to 0 and
clears `locked_until`, whatever their prior values, in both
handlers. -/
theorem successful_login_resets_counter_and_lock
    (env : AuthEnv) (store : List Profile) (now : Nat)
    (loginInput password : String) (p : Profile) (e : String)
    (hraw : strTrim loginInput ≠ "") (hpw : password ≠ "")
    (hfind : (lookupProfile store (strTrim loginInput)).2 = some p)
    (hnl : lockedActive p now = false)
    (hemail : env.getEmail p.id = some e)
    (hokS : env.signIn e password = true)
    (hokC : env.signIn p.email password = true) :
    (login env store now loginInput password).outcome =
      LoginOutcome.success ∧
    (∀ q ∈ (login env store now loginInput password).store, q.id = p.id →
        q.failed_login_attempts = some 0 ∧ q.locked_until = none) ∧
    (∃ q ∈ (login env store now loginInput password).store, q.id = p.id) ∧
    (citizenLogin env store now loginInput password).outcome =
      LoginOutcome.success ∧
    (∀ q ∈ (citizenLogin env store now loginInput password).store,
        q.id = p.id →
        q.failed_login_attempts = some 0 ∧ q.locked_until = none) := by
  have hp : p ∈ store := mem_of_lookup hfind
  have h1 := login_eq_loginFound env store now loginInput password p hraw hpw hfind
  have h2 := citizenLogin_eq_found env store now loginInput password p hraw hpw hfind
  rw [h1, h2]
  have e1 : loginFound env store now password p =
      ⟨LoginOutcome.success,
       updateProfile store p.id
         (fun q => { q with failed_login_attempts := some 0,
                            locked_until := none }),
       true⟩ := by
    simp [loginFound, hnl, hemail, hokS]
  have e2 : citizenLoginFound env store now password p =
      ⟨LoginOutcome.success,
       updateProfile store p.id
         (fun q => { q with failed_login_attempts := some 0,
                            locked_until := none }),
       true⟩ := by
    simp [citizenLoginFound, hnl, hokC]
  rw [e1, e2]
  refine ⟨rfl, ?_, ⟨_, self_mem_updateProfile _ hp, rfl⟩, rfl, ?_⟩ <;>
  · intro q hq hid
    obtain ⟨r, _, _, hqr⟩ := updateProfile_spec q hq hid
    subst hqr
    exact ⟨rfl, rfl⟩

/-- Witness for C3: the account with one prior failed attempt logs in
with the correct password at time 0 and its row afterward has counter
0 and no lock. -/
theorem successful_login_resets_counter_and_lock_witness :
    strTrim "0911223344" ≠ "" ∧ ("hunter2" : String) ≠ "" ∧
    (lookupProfile [pFail] (strTrim "0911223344")).2 = some pFail ∧
    lockedActive pFail 0 = false ∧
    envGood.getEmail pFail.id = some "user@example.com" ∧
    envGood.signIn "user@example.com" "hunter2" = true ∧
    envGood.signIn pFail.email "hunter2" = true ∧
    (login envGood [pFail] 0 "0911223344" "hunter2").outcome =
      LoginOutcome.success ∧
    { pFail with failed_login_attempts := some 0,
                 locked_until := none }.failed_login_attempts = some 0 ∧
    { pFail with failed_login_attempts := some 0, locked_until := none } ∈
      (login envGood [pFail] 0 "0911223344" "hunter2").store := by
  have h := successful_login_resets_counter_and_lock envGood [pFail] 0
    "0911223344" "hunter2" pFail "user@example.com" (by decide) (by decide)
    (by decide) (by decide) (by decide) (by decide) (by decide)
  refine ⟨by decide, by decide, by decide, by decide, by decide, by decide,
    by decide, h.1, ?_, by decide⟩
  exact (h.2.1 ({ pFail with failed_login_attempts := some 0, locked_until := none }) (by decide) (by decide)).1

/-- Claim C4: a found account is treated as login-locked iff
`locked_until` is set and strictly in the future; whenever there is no
future lock — in particular when the lock has passed, with no condition
on the failed-attempt counter — the handlers proceed to the password
check. -/
theorem login_locked_iff_lock_in_future
    (env : AuthEnv) (store : List Profile) (now : Nat)
    (loginInput password : String) (p : Profile) (e : String)
    (hraw : strTrim loginInput ≠ "") (hpw : password ≠ "")
    (hfind : (lookupProfile store (strTrim loginInput)).2 = some p)
    (hemail : env.getEmail p.id = some e) :
    ((∃ w, (login env store now loginInput password).outcome =
        LoginOutcome.locked w) ↔
      (∃ t, p.locked_until = some t ∧ now < t)) ∧
    (login env store now loginInput password).passwordChecked =
      !(lockedActive p now) ∧
    ((∃ w, (citizenLogin env store now loginInput password).outcome =
        LoginOutcome.locked w) ↔
      (∃ t, p.locked_until = some t ∧ now < t)) ∧
    (citizenLogin env store now loginInput password).passwordChecked =
      !(lockedActive p now) := by
  have h1 := login_eq_loginFound env store now loginInput password p hraw hpw hfind
  have h2 := citizenLogin_eq_found env store now loginInput password p hraw hpw hfind
  rw [h1, h2]
  by_cases hL : lockedActive p now
  · obtain ⟨t, ht, hnt⟩ := lockedActive_iff.1 hL
    have e1 : loginFound env store now password p =
        ⟨LoginOutcome.locked (ceilDiv (t - now) 60000), store, false⟩ := by
      simp [loginFound, hL, ht]
    have e2 : citizenLoginFound env store now password p =
        ⟨LoginOutcome.locked (ceilDiv (t - now) 60000), store, false⟩ := by
      simp [citizenLoginFound, hL, ht]
    rw [e1, e2, hL]
    exact ⟨⟨fun _ => ⟨t, ht, hnt⟩, fun _ => ⟨ceilDiv (t - now) 60000, rfl⟩⟩,
      rfl, ⟨fun _ => ⟨t, ht, hnt⟩, fun _ => ⟨ceilDiv (t - now) 60000, rfl⟩⟩, rfl⟩
  · have hLf : lockedActive p now = false := by simpa using hL
    have e1 : (loginFound env store now password p).passwordChecked = true ∧
        ∀ w, (loginFound env store now password p).outcome ≠
          LoginOutcome.locked w := by
      by_cases hs : env.signIn e password
      · simp [loginFound, hLf, hemail, hs]
      · rw [loginFound_fail env store now password p e hLf hemail
          (by simpa using hs)]
        by_cases h5 : 5 ≤ p.failed_login_attempts.getD 0 + 1 <;> simp [h5]
    have e2 : (citizenLoginFound env store now password p).passwordChecked
          = true ∧
        ∀ w, (citizenLoginFound env store now password p).outcome ≠
          LoginOutcome.locked w := by
      by_cases hs : env.signIn p.email password
      · simp [citizenLoginFound, hLf, hs]
      · rw [citizenLoginFound_fail env store now password p hLf
          (by simpa using hs)]
        by_cases h5 : 5 ≤ p.failed_login_attempts.getD 0 + 1 <;> simp [h5]
    refine ⟨⟨fun hx => ?_, fun hx => absurd (lockedActive_iff.2 hx) hL⟩,
      by rw [hLf]; exact e1.1,
      ⟨fun hx => ?_, fun hx => absurd (lockedActive_iff.2 hx) hL⟩,
      by rw [hLf]; exact e2.1⟩
    · obtain ⟨w, hw⟩ := hx
      exact absurd hw (e1.2 w)
    · obtain ⟨w, hw⟩ := hx
      exact absurd hw (e2.2 w)

/-- Witness for C4: the account whose lock expired at time 100 with
counter 5 is put through the password check at time 200. -/
theorem login_locked_iff_lock_in_future_witness :
    strTrim "0911223344" ≠ "" ∧ ("badpw" : String) ≠ "" ∧
    (lookupProfile [pExpired] (strTrim "0911223344")).2 = some pExpired ∧
    envGood.getEmail pExpired.id = some "user@example.com" ∧
    lockedActive pExpired 200 = false ∧
    (login envGood [pExpired] 200 "0911223344" "badpw").passwordChecked =
      !(lockedActive pExpired 200) ∧
    (citizenLogin envGood [pExpired] 200 "0911223344" "badpw").passwordChecked
      = !(lockedActive pExpired 200) := by
  have h := login_locked_iff_lock_in_future envGood [pExpired] 200
    "0911223344" "badpw" pExpired "user@example.com" (by decide) (by decide)
    (by decide) (by decide)
  exact ⟨by decide, by decide, by decide, by decide, by decide,
    h.2.1, h.2.2.2⟩

/-- Claim C9: lock expiry does not reset the counter — an account
whose counter is 4 or more and whose lock is not active (expired or
never set) is locked again by a single further failed password check:
both handlers respond with the 403 lockout, never the
remaining-attempts response, and write a fresh lock of now + 15
minutes next to the incremented counter. -/
theorem expired_lock_failure_relocks_immediately
    (env : AuthEnv) (store : List Profile) (now : Nat)
    (loginInput password : String) (p : Profile) (e : String) (m : Nat)
    (hraw : strTrim loginInput ≠ "") (hpw : password ≠ "")
    (hfind : (lookupProfile store (strTrim loginInput)).2 = some p)
    (hm : p.failed_login_attempts = some m) (h4 : 4 ≤ m)
    (hnl : lockedActive p now = false)
    (hemail : env.getEmail p.id = some e)
    (hfailS : env.signIn e password = false)
    (hfailC : env.signIn p.email password = false) :
    (login env store now loginInput password).outcome =
      LoginOutcome.lockedNow ∧
    statusOf (login env store now loginInput password).outcome = 403 ∧
    (∀ q ∈ (login env store now loginInput password).store, q.id = p.id →
        q.failed_login_attempts = some (m + 1) ∧
        q.locked_until = some (now + lockDurationMs)) ∧
    (∃ q ∈ (login env store now loginInput password).store, q.id = p.id) ∧
    (citizenLogin env store now loginInput password).outcome =
      LoginOutcome.lockedNow ∧
    (∀ q ∈ (citizenLogin env store now loginInput password).store,
        q.id = p.id →
        q.failed_login_attempts = some (m + 1) ∧
        q.locked_until = some (now + lockDurationMs)) := by
  have hp : p ∈ store := mem_of_lookup hfind
  have hgd : p.failed_login_attempts.getD 0 = m := by rw [hm]; rfl
  have h5 : 5 ≤ p.failed_login_attempts.getD 0 + 1 := by omega
  have h1 := login_eq_loginFound env store now loginInput password p hraw hpw hfind
  have h2 := citizenLogin_eq_found env store now loginInput password p hraw hpw hfind
  rw [h1, h2, loginFound_fail env store now password p e hnl hemail hfailS,
    citizenLoginFound_fail env store now password p hnl hfailC,
    if_pos h5, if_pos h5]
  refine ⟨rfl, rfl, ?_, ⟨_, self_mem_updateProfile _ hp, rfl⟩, rfl, ?_⟩ <;>
  · intro q hq hid
    obtain ⟨r, _, _, hqr⟩ := updateProfile_spec q hq hid
    subst hqr
    exact ⟨by rw [hgd], rfl⟩

/-- Witness for C9: at time 200 the account with counter 5 and a lock
that expired at time 100 fails once more and is locked again until
900200 with counter 6. -/
theorem expired_lock_failure_relocks_immediately_witness :
    strTrim "0911223344" ≠ "" ∧ ("badpw" : String) ≠ "" ∧
    (lookupProfile [pExpired] (strTrim "0911223344")).2 = some pExpired ∧
    pExpired.failed_login_attempts = some 5 ∧ 4 ≤ 5 ∧
    lockedActive pExpired 200 = false ∧
    envGood.getEmail pExpired.id = some "user@example.com" ∧
    envGood.signIn "user@example.com" "badpw" = false ∧
    envGood.signIn pExpired.email "badpw" = false ∧
    (login envGood [pExpired] 200 "0911223344" "badpw").outcome =
      LoginOutcome.lockedNow ∧
    ({ pExpired with failed_login_attempts := some 6, locked_until := some (200 + lockDurationMs) }).failed_login_attempts = some 6 ∧
    ({ pExpired with failed_login_attempts := some 6, locked_until := some (200 + lockDurationMs) }).locked_until = some 900200 ∧
    ({ pExpired with failed_login_attempts := some 6, locked_until := some (200 + lockDurationMs) }) ∈
      (login envGood [pExpired] 200 "0911223344" "badpw").store := by
  have h := expired_lock_failure_relocks_immediately envGood [pExpired] 200
    "0911223344" "badpw" pExpired "user@example.com" 5 (by decide)
    (by decide) (by decide) (by decide) (by decide) (by decide) (by decide)
    (by decide) (by decide)
  refine ⟨by decide, by decide, by decide, by decide, by decide, by decide,
    by decide, by decide, by decide, h.1, ?_, by decide, by decide⟩
  exact (h.2.2.1 ({ pExpired with failed_login_attempts := some 6, locked_until := some (200 + lockDurationMs) }) (by decide) (by decide)).1

theorem strStartsWith_09_false_of_plus2519 {s : String}
    (h : strStartsWith s "+2519" = true) : strStartsWith s "09" = false := by
  unfold strStartsWith at h ⊢
  have h2519 : ("+2519" : String).data = ['+', '2', '5', '1', '9'] := rfl
  have h09 : ("09" : String).data = ['0', '9'] := rfl
  rw [h2519] at h
  rw [h09]
  cases hd : s.data with
  | nil =>
    rw [hd] at h
    simp [List.isPrefixOf] at h
  | cons c l =>
    rw [hd] at h
    simp [List.isPrefixOf] at h ⊢
    intro hc
    exact absurd (h.1.trans hc.symm) (by decide)

/-- Claim C5: for an identifier in local form (`09…`) the candidate
set built by the login handlers also contains the international form
`+251` + the trailing digits, and for an identifier in international
form (`+2519…`) it also contains the local form `0` + the trailing
digits; the raw input itself is always a candidate, and a stored
profile whose phone number equals any candidate makes the phone
lookup succeed. -/
theorem phone_lookup_covers_both_representations
    (s : String) (store : List Profile) (p : Profile) :
    (strStartsWith s "09" = true →
       ("+251" ++ strDrop s 1) ∈ possibleNumbers s) ∧
    (strStartsWith s "+2519" = true →
       ("0" ++ strDrop s 4) ∈ possibleNumbers s) ∧
    s ∈ possibleNumbers s ∧
    (isFinInput s = false → p ∈ store →
       p.phone_number ∈ possibleNumbers s →
       ((lookupProfile store s).2).isSome = true) := by
  refine ⟨?_, ?_, ?_, ?_⟩
  · intro h
    simp [possibleNumbers, h]
  · intro h
    simp [possibleNumbers, strStartsWith_09_false_of_plus2519 h, h]
  · unfold possibleNumbers
    split
    · simp
    · split <;> simp
  · intro hf hp hmem
    simp only [lookupProfile, hf, Bool.false_eq_true, if_false]
    rw [List.find?_isSome]
    exact ⟨p, hp, List.elem_eq_true_of_mem hmem⟩

/-- Witness for C5: `0911223344` also matches the stored
`+251911223344` (and the international input also generates the local
form), so the lookup over the one-row store succeeds. -/
theorem phone_lookup_covers_both_representations_witness :
    strStartsWith "0911223344" "09" = true ∧
    ("+251" ++ strDrop "0911223344" 1) ∈ possibleNumbers "0911223344" ∧
    strStartsWith "+251911223344" "+2519" = true ∧
    ("0" ++ strDrop "+251911223344" 4) ∈ possibleNumbers "+251911223344" ∧
    isFinInput "0911223344" = false ∧ pFail ∈ [pFail] ∧
    pFail.phone_number ∈ possibleNumbers "0911223344" ∧
    ((lookupProfile [pFail] "0911223344").2).isSome = true := by
  have hloc := phone_lookup_covers_both_representations "0911223344" [pFail] pFail
  have hint := phone_lookup_covers_both_representations "+251911223344" [] pFail
  exact ⟨by decide, hloc.1 (by decide), by decide, hint.2.1 (by decide),
    by decide, by decide, by decide,
    hloc.2.2.2 (by decide) (by decide) (by decide)⟩

/-- Claim C6: after trimming, an identifier passes the FIN test iff it
is exactly 12 decimal digits; such an input is classified as a FIN
lookup and never a phone lookup, regardless of the store contents; any
other trimmed identifier is classified as a phone lookup, which
returns no row when no stored representation matches. -/
theorem twelve_digit_input_is_fin_lookup (s : String) (store : List Profile) :
    (isFinInput (strTrim s) = true ↔
       ((strTrim s).data.length = 12 ∧
        ∀ c ∈ (strTrim s).data, c.isDigit = true)) ∧
    (isFinInput (strTrim s) = true →
       (lookupProfile store (strTrim s)).1 = LookupKind.fin) ∧
    (isFinInput (strTrim s) = false →
       (lookupProfile store (strTrim s)).1 = LookupKind.phone) ∧
    (isFinInput (strTrim s) = false →
       (∀ p ∈ store, p.phone_number ∉ possibleNumbers (strTrim s)) →
       (lookupProfile store (strTrim s)).2 = none) := by
  refine ⟨?_, ?_, ?_, ?_⟩
  · simp [isFinInput, List.all_eq_true]
  · intro hfin
    simp [lookupProfile, hfin]
  · intro hfin
    simp [lookupProfile, hfin]
  · intro hfin hnone
    simp only [lookupProfile, hfin, Bool.false_eq_true, if_false]
    rw [List.find?_eq_none]
    intro p hp hcon
    exact hnone p hp (List.mem_of_elem_eq_true hcon)

/-- Witness for C6: the padded input `" 123456789012 "` trims to 12
digits and is classified as a FIN lookup over the empty store (no
match exists), while `"0911223344x"` fails the FIN test, is classified
as a phone lookup, and misses. -/
theorem twelve_digit_input_is_fin_lookup_witness :
    isFinInput (strTrim " 123456789012 ") = true ∧
    (lookupProfile [] (strTrim " 123456789012 ")).1 = LookupKind.fin ∧
    isFinInput (strTrim "0911223344x") = false ∧
    (lookupProfile [] (strTrim "0911223344x")).1 = LookupKind.phone ∧
    (lookupProfile [] (strTrim "0911223344x")).2 = none := by
  have h1 := twelve_digit_input_is_fin_lookup " 123456789012 " []
  have h2 := twelve_digit_input_is_fin_lookup "0911223344x" []
  exact ⟨by decide, h1.2.1 (by decide), by decide, h2.2.2.1 (by decide),
    h2.2.2.2 (by decide) (by simp)⟩

/-- Claim C7: an initiate-register request for a (12-digit) FIN that
already has an account in the store is rejected with the 409 conflict
by both route variants, and the request-OTP call to the identity provider
is not issued. -/
theorem initiate_register_existing_fin_conflict
    (store : List Profile) (fin : String) (otpOk : Bool)
    (hfin : isFinInput fin = true) (hex : finExists store fin = true) :
    initiateRegister store fin otpOk = ⟨InitRegOutcome.conflict, false⟩ ∧
    citizenInitiateRegister store fin otpOk =
      ⟨InitRegOutcome.conflict, false⟩ := by
  have hlen : fin.data.length = 12 := by
    have h := hfin
    simp [isFinInput] at h
    exact h.1
  have hne : (fin == "") = false := by
    simp only [beq_eq_false_iff_ne]
    intro h
    rw [h] at hlen
    simp at hlen
  constructor
  · simp [initiateRegister, hne, hlen, hex]
  · simp [citizenInitiateRegister, hne, hfin, hex]

/-- Witness for C7: registering the FIN `123456789012`, which the
store already holds, yields the conflict without an OTP request. -/
theorem initiate_register_existing_fin_conflict_witness :
    isFinInput "123456789012" = true ∧
    finExists [pFail] "123456789012" = true ∧
    initiateRegister [pFail] "123456789012" true =
      ⟨InitRegOutcome.conflict, false⟩ ∧
    citizenInitiateRegister [pFail] "123456789012" true =
      ⟨InitRegOutcome.conflict, false⟩ := by
  have h := initiate_register_existing_fin_conflict [pFail] "123456789012"
    true (by decide) (by decide)
  exact ⟨by decide, by decide, h.1, h.2⟩

/-- Claim C8: when the identity provider rejects the supplied OTP in
complete-register, both route variants report a registration failure,
the managed-auth user-creation call is never issued, the profile row
is never written, and the store is unchanged. -/
theorem complete_register_otp_reject_creates_nothing
    (store : List Profile) (fin otp email password : String)
    (verify : String → String → Option KycData)
    (createUser : String → String → Option Nat)
    (signUp : String → String → String → Option Nat)
    (hf : fin ≠ "") (ho : otp ≠ "") (he : email ≠ "") (hp : password ≠ "")
    (hv : verify fin otp = none) :
    completeRegister store fin otp email password verify createUser =
      ⟨CompRegOutcome.otpRejected, false, false, store⟩ ∧
    citizenCompleteRegister store fin otp email password verify signUp =
      ⟨CompRegOutcome.otpRejected, false, false, store⟩ := by
  constructor
  · simp [completeRegister, hv]
  · have hcond :
        (fin == "" || otp == "" || email == "" || password == "") = false := by
      simp [hf, ho, he, hp]
    simp [citizenCompleteRegister, hcond, hv]

/-- Witness for C8: a verifier that rejects every OTP leaves the
one-row store untouched and issues no user-creation call in either
variant. -/
theorem complete_register_otp_reject_creates_nothing_witness :
    ("123456789012" : String) ≠ "" ∧ ("000000" : String) ≠ "" ∧
    ("new@example.com" : String) ≠ "" ∧ ("pw12345" : String) ≠ "" ∧
    (fun (_ : String) (_ : String) => (none : Option KycData))
        "123456789012" "000000" = none ∧
    completeRegister [pFail] "123456789012" "000000" "new@example.com"
        "pw12345" (fun _ _ => none) (fun _ _ => some 2) =
      ⟨CompRegOutcome.otpRejected, false, false, [pFail]⟩ ∧
    citizenCompleteRegister [pFail] "123456789012" "000000"
        "new@example.com" "pw12345" (fun _ _ => none)
        (fun _ _ _ => some 2) =
      ⟨CompRegOutcome.otpRejected, false, false, [pFail]⟩ := by
  have h := complete_register_otp_reject_creates_nothing [pFail]
    "123456789012" "000000" "new@example.com" "pw12345"
    (fun _ _ => none) (fun _ _ => some 2) (fun _ _ _ => some 2)
    (by decide) (by decide) (by decide) (by decide) rfl
  exact ⟨by decide, by decide, by decide, by decide, rfl, h.1, h.2⟩

/-- Claim C10: the two initiate-reset route variants disagree on
account-existence disclosure: for the FIN `123456789012` with no
stored account, the Better-Auth variant answers with the generic
success payload and does not contact the identity provider, while the
Supabase variant answers 404, confirming that no account exists. -/
theorem initiate_reset_variants_disagree_on_missing_account :
    citizenInitiateReset [] "123456789012" true =
      ⟨InitResetOutcome.genericSuccess, false⟩ ∧
    initiateReset [] "123456789012" true =
      ⟨InitResetOutcome.notFound, false⟩ ∧
    citizenInitiateReset [] "123456789012" true ≠
      initiateReset [] "123456789012" true := by
  decide

end Civic
